import Mathlib

/-!
# cerobullying: the report form of `src/App.jsx`

A shallow embedding of the state logic of the component `BullyingReportPrototype`:
the twelve `useState` cells, the derived values `canSend` and `summary`, the
handlers `toggleTag` and `reset`, the acknowledgment block of the report tab,
and the events of the form's interactive elements with the states they reach.

JavaScript strings are sequences of UTF-16 code units, and `length`, `slice` and
`trim` work on code units; the embedding keeps that representation.
-/

namespace CeroBullying

set_option maxRecDepth 100000

/-! ## JavaScript strings -/

/-- A JavaScript string value: its UTF-16 code units, in order. -/
abbrev JSString := List Nat

/-- UTF-16 encoding of one Unicode scalar value: one code unit in the basic plane,
a surrogate pair above it. -/
def utf16Char (c : Char) : List Nat :=
  if c.toNat < 65536 then [c.toNat]
  else [55296 + (c.toNat - 65536) / 1024, 56320 + (c.toNat - 65536) % 1024]

/-- UTF-16 encoding of a list of scalar values. -/
def utf16Chars : List Char → JSString
  | [] => []
  | c :: cs => utf16Char c ++ utf16Chars cs

/-- The JavaScript string value denoted by a source literal. -/
def utf16 (s : String) : JSString := utf16Chars s.toList

/-- Code units that `String.prototype.trim` strips: ECMAScript WhiteSpace
(TAB, VT, FF, ZWNBSP and the Space_Separator category) and LineTerminator
(LF, CR, LS, PS). -/
def isWhiteSpace (u : Nat) : Bool :=
  u == 0x0009 || u == 0x000A || u == 0x000B || u == 0x000C || u == 0x000D ||
  u == 0x0020 || u == 0x00A0 || u == 0x1680 ||
  (0x2000 ≤ u && u ≤ 0x200A) ||
  u == 0x2028 || u == 0x2029 || u == 0x202F || u == 0x205F || u == 0x3000 ||
  u == 0xFEFF

/-- `String.prototype.trim`: leading and trailing white space removed. -/
def trim (s : JSString) : JSString :=
  ((s.dropWhile isWhiteSpace).reverse.dropWhile isWhiteSpace).reverse

/-- JavaScript truthiness of a string (`Boolean(s)`, `!s`): non-empty. -/
def truthy (s : JSString) : Bool := !s.isEmpty

/-- `String.prototype.slice(0, n)` for `n ≥ 0`: the first `n` code units. -/
def slice0 (s : JSString) (n : Nat) : JSString := s.take n

/-- `Array.prototype.join(sep)` on an array of strings. -/
def join (sep : JSString) : List JSString → JSString
  | [] => []
  | [x] => x
  | x :: y :: rest => x ++ sep ++ join sep (y :: rest)

/-! ## Constants of the module -/

/-- The tag vocabulary `chips`. -/
def chips : List JSString :=
  [ utf16 "Insultos / burlas",
    utf16 "Exclusión",
    utf16 "Amenazas",
    utf16 "Ciberbullying",
    utf16 "Rumores",
    utf16 "Agresión física",
    utf16 "Robo / daño de pertenencias",
    utf16 "Discriminación" ]

/-- The location labels `locations`. -/
def locations : List JSString :=
  [ utf16 "Aula", utf16 "Patio", utf16 "Pasillo", utf16 "Baño", utf16 "Salida",
    utf16 "Redes sociales", utf16 "Grupo de chat", utf16 "Otro" ]

/-- The grade labels `grades`. -/
def grades : List JSString :=
  [ utf16 "1°", utf16 "2°", utf16 "3°", utf16 "4°", utf16 "5°", utf16 "6°",
    utf16 "7°", utf16 "No aplica" ]

/-! ## Component state -/

/-- The `useState` cells of `BullyingReportPrototype`, under their source names. -/
structure State where
  anonymous : Bool
  contactOk : Bool
  name : JSString
  email : JSString
  course : JSString
  location : JSString
  when : JSString
  what : List JSString
  details : JSString
  evidence : Bool
  danger : Bool
  sent : Bool
  deriving DecidableEq, Repr

/-- The initial values passed to `useState`. -/
def initialState : State :=
  { anonymous := true
    contactOk := false
    name := utf16 ""
    email := utf16 ""
    course := utf16 "3°"
    location := utf16 "Aula"
    when := utf16 "Ayer"
    what := []
    details := utf16 ""
    evidence := false
    danger := false
    sent := false }

/-- The derived value `canSend`. -/
def canSend (s : State) : Bool :=
  if !truthy (trim s.details) then false
  else if !s.anonymous && s.contactOk then truthy (trim s.name) && truthy (trim s.email)
  else true

/-- The object computed by `summary`. -/
structure Summary where
  title : JSString
  body : JSString
  deriving DecidableEq, Repr

/-- The derived value `summary`. -/
def summary (s : State) : Summary :=
  let tag := if s.what.length != 0 then join (utf16 ", ") s.what else utf16 "(sin etiquetas)"
  { title :=
      if s.danger then utf16 "Marcaste una situación urgente"
      else utf16 "Comunicación lista para enviar"
    body :=
      utf16 "Curso: " ++ s.course ++ utf16 " • Lugar: " ++ s.location ++
        utf16 " • Cuándo: " ++ s.when ++
      utf16 "\nTipo: " ++ tag ++
      utf16 "\nEvidencia: " ++ (if s.evidence then utf16 "Sí" else utf16 "No") ++
      utf16 "\n\nDetalle: " ++ slice0 s.details 220 ++
        (if s.details.length > 220 then utf16 "…" else utf16 "") }

/-- The handler `toggleTag`: the updater passed to `setWhat`, applied to the state. -/
def toggleTag (t : JSString) (s : State) : State :=
  { s with what := if s.what.contains t then s.what.filter (fun x => x != t) else s.what ++ [t] }

/-! The state setters returned by `useState`, called with a plain value. -/

/-- Setter `setAnonymous`. -/
def setAnonymous (v : Bool) (s : State) : State := { s with anonymous := v }
/-- Setter `setContactOk`. -/
def setContactOk (v : Bool) (s : State) : State := { s with contactOk := v }
/-- Setter `setName`. -/
def setName (v : JSString) (s : State) : State := { s with name := v }
/-- Setter `setEmail`. -/
def setEmail (v : JSString) (s : State) : State := { s with email := v }
/-- Setter `setCourse`. -/
def setCourse (v : JSString) (s : State) : State := { s with course := v }
/-- Setter `setLocation`. -/
def setLocation (v : JSString) (s : State) : State := { s with location := v }
/-- Setter `setWhen`. -/
def setWhen (v : JSString) (s : State) : State := { s with when := v }
/-- Setter `setWhat`, called with a plain value. -/
def setWhat (v : List JSString) (s : State) : State := { s with what := v }
/-- Setter `setDetails`. -/
def setDetails (v : JSString) (s : State) : State := { s with details := v }
/-- Setter `setEvidence`. -/
def setEvidence (v : Bool) (s : State) : State := { s with evidence := v }
/-- Setter `setDanger`. -/
def setDanger (v : Bool) (s : State) : State := { s with danger := v }
/-- Setter `setSent`. -/
def setSent (v : Bool) (s : State) : State := { s with sent := v }

/-- The handler `reset`: the twelve setter calls, in source order. -/
def reset (s : State) : State :=
  s |> setAnonymous true
    |> setContactOk false
    |> setName (utf16 "")
    |> setEmail (utf16 "")
    |> setCourse (utf16 "3°")
    |> setLocation (utf16 "Aula")
    |> setWhen (utf16 "Ayer")
    |> setWhat []
    |> setDetails (utf16 "")
    |> setEvidence false
    |> setDanger false
    |> setSent false

/-! ## Auxiliary definitions for the statements -/

/-- A string with no code unit other than white space (the empty string included). -/
def isBlank (s : JSString) : Prop := ∀ u ∈ s, isWhiteSpace u = true

instance (s : JSString) : Decidable (isBlank s) := by
  unfold isBlank; infer_instance

/-- The example report of the specification: a shove in the playground, reported
anonymously. -/
def exampleDraft : State :=
  { initialState with
    details := utf16 "Me empujaron en el recreo"
    course := utf16 "3°"
    location := utf16 "Patio"
    when := utf16 "Ayer"
    what := [utf16 "Agresión física"]
    evidence := false
    danger := false }

/-- The example report with contact consent given and no contact name. -/
def namelessDraft : State :=
  { initialState with
    anonymous := false
    contactOk := true
    name := utf16 ""
    email := utf16 "x@example.com"
    details := utf16 "algo pasó" }

/-- The tag text as the specification words it: the selected tags joined by
a comma and a blank, or the fixed placeholder when no tag is selected. -/
def tagsText : List JSString → JSString
  | [] => utf16 "(sin etiquetas)"
  | t :: ts => join (utf16 ", ") (t :: ts)

/-- The narrative as the specification words it: whole when it has at most 220
code units, else its first 220 code units followed by the ellipsis marker. -/
def shownNarrative (n : JSString) : JSString :=
  if n.length ≤ 220 then n else n.take 220 ++ utf16 "…"

/-- The body as the specification lays it out: five lines, the fourth one empty. -/
def specBody (s : State) : JSString :=
  join (utf16 "\n")
    [ utf16 "Curso: " ++ s.course ++ utf16 " • Lugar: " ++ s.location ++
        utf16 " • Cuándo: " ++ s.when,
      utf16 "Tipo: " ++ tagsText s.what,
      utf16 "Evidencia: " ++ (if s.evidence then utf16 "Sí" else utf16 "No"),
      utf16 "",
      utf16 "Detalle: " ++ shownNarrative s.details ]

/-- A narrative of exactly 220 code units. -/
def narrative220 : JSString := List.replicate 220 97

/-- A narrative of exactly 221 code units, the last one different from the rest. -/
def narrative221 : JSString := List.replicate 220 97 ++ [98]

/-- The state after selecting the tags "Exclusión" and "Amenazas", in that order. -/
def twoTags : State :=
  toggleTag (utf16 "Amenazas") (toggleTag (utf16 "Exclusión") initialState)

/-! ## Rendering and user actions -/

/-- The two icons handed to `ToastLike`. -/
inductive Icon where
  | AlertTriangle
  | CheckCircle2
  deriving DecidableEq, Repr

/-- What `ToastLike` shows: it renders its `title` and `body` props unchanged. -/
structure Toast where
  icon : Icon
  title : JSString
  body : JSString
  deriving DecidableEq, Repr

/-- The acknowledgment block inside the report tab, `sent && <ToastLike ... />`:
the props handed to `ToastLike` whenever that tab is the one rendered. -/
def acknowledgment (s : State) : Option Toast :=
  if s.sent then
    some
      { icon := if s.danger then Icon.AlertTriangle else Icon.CheckCircle2
        title := (summary s).title
        body :=
          if s.danger then
            utf16 "Gracias por avisar. Si hay peligro inmediato, buscá a un adulto ya. Este canal activa seguimiento, pero lo urgente va primero."
          else
            utf16 "Gracias por contar lo que pasó. En un sitio real, esto se enviaría al Equipo de Convivencia para intervención y acompañamiento." }
  else none

/-- The `onClick` handler of the send button: `() => { setSent(true); }`. -/
def onSendClick (s : State) : State := setSent true s

/-- The user events of the report form, one per interactive element that has a
handler; text and checkbox events carry the value read from the event target. -/
inductive Action where
  | switchAnonymous
  | checkContactOk (v : Bool)
  | inputName (v : JSString)
  | inputEmail (v : JSString)
  | selectCourse (v : JSString)
  | selectLocation (v : JSString)
  | inputWhen (v : JSString)
  | clickChip (t : JSString)
  | inputDetails (v : JSString)
  | checkEvidence (v : Bool)
  | checkDanger (v : Bool)
  | clickSend
  | clickReset
  deriving DecidableEq, Repr

/-- Whether the element of an event is rendered and can fire it: the name and
contact inputs are rendered only under `!anonymous && contactOk`, a select offers
its `options` only, a chip exists for each element of `chips`, and the send button
carries `disabled={!canSend}`. -/
def enabled (a : Action) (s : State) : Bool :=
  match a with
  | .switchAnonymous => true
  | .checkContactOk _ => true
  | .inputName _ => !s.anonymous && s.contactOk
  | .inputEmail _ => !s.anonymous && s.contactOk
  | .selectCourse v => grades.contains v
  | .selectLocation v => locations.contains v
  | .inputWhen _ => true
  | .clickChip t => chips.contains t
  | .inputDetails _ => true
  | .checkEvidence _ => true
  | .checkDanger _ => true
  | .clickSend => canSend s
  | .clickReset => true

/-- The handler run by each event. -/
def handle (a : Action) (s : State) : State :=
  match a with
  | .switchAnonymous => setAnonymous (!s.anonymous) s
  | .checkContactOk v => setContactOk v s
  | .inputName v => setName v s
  | .inputEmail v => setEmail v s
  | .selectCourse v => setCourse v s
  | .selectLocation v => setLocation v s
  | .inputWhen v => setWhen v s
  | .clickChip t => toggleTag t s
  | .inputDetails v => setDetails v s
  | .checkEvidence v => setEvidence v s
  | .checkDanger v => setDanger v s
  | .clickSend => onSendClick s
  | .clickReset => reset s

/-- States the form can be in: the initial one and those an enabled event leads to. -/
inductive Reachable : State → Prop where
  | init : Reachable initialState
  | step (a : Action) (s : State) :
      Reachable s → enabled a s = true → Reachable (handle a s)

/-- The tag-list predicate: no duplicate, and every element a label of `chips`. -/
def TagInv (s : State) : Prop := s.what.Nodup ∧ ∀ x ∈ s.what, x ∈ chips

/-- The two selected tags of `twoTags`, stored in the opposite order. -/
def twoTagsSwapped : State :=
  setWhat [utf16 "Amenazas", utf16 "Exclusión"] initialState

/-- The example report after it was sent and its narrative then emptied. -/
def sentThenEmptied : State :=
  handle (.inputDetails (utf16 ""))
    (handle .clickSend
      (handle (.inputDetails (utf16 "Me empujaron en el recreo")) initialState))

/-- The example report with contact data filled in and consent given. -/
def exampleWithContact : State :=
  { exampleDraft with
    anonymous := false
    contactOk := true
    name := utf16 "Ana"
    email := utf16 "x@example.com" }

/-! ## Lemmas on `trim` -/

theorem trim_eq_nil_of_isBlank {s : JSString} (h : isBlank s) : trim s = [] := by
  have h1 : s.dropWhile isWhiteSpace = [] := List.dropWhile_eq_nil_iff.mpr h
  simp [trim, h1]

theorem mem_dropWhile_of_not {p : Nat → Bool} {u : Nat} :
    ∀ {s : List Nat}, u ∈ s → p u = false → u ∈ s.dropWhile p
  | [], h, _ => by simp at h
  | a :: l, h, hp => by
    by_cases ha : p a = true
    · have hne : u ≠ a := by
        intro e
        rw [e, ha] at hp
        exact Bool.noConfusion hp
      have hu : u ∈ l := by
        rcases List.mem_cons.mp h with e | e
        · exact absurd e hne
        · exact e
      simpa [List.dropWhile_cons, ha] using mem_dropWhile_of_not hu hp
    · simpa [List.dropWhile_cons, ha] using h

theorem trim_ne_nil_of_not_blank {s : JSString}
    (h : ∃ u ∈ s, isWhiteSpace u = false) : trim s ≠ [] := by
  obtain ⟨u, hu, hw⟩ := h
  have h1 : u ∈ (s.dropWhile isWhiteSpace).reverse :=
    List.mem_reverse.mpr (mem_dropWhile_of_not hu hw)
  have h2 : u ∈ ((s.dropWhile isWhiteSpace).reverse.dropWhile isWhiteSpace) :=
    mem_dropWhile_of_not h1 hw
  intro e
  have h3 : ((s.dropWhile isWhiteSpace).reverse.dropWhile isWhiteSpace) = [] := by
    simpa [trim] using e
  rw [h3] at h2
  simp at h2

theorem truthy_trim_of_not_blank {s : JSString}
    (h : ∃ u ∈ s, isWhiteSpace u = false) : truthy (trim s) = true := by
  have := trim_ne_nil_of_not_blank h
  cases hk : trim s with
  | nil => exact absurd hk this
  | cons a l => simp [truthy]

theorem truthy_eq_true_iff (s : JSString) : truthy s = true ↔ s ≠ [] := by
  cases s <;> simp [truthy]

/-! ## Lemmas on `toggleTag` -/

theorem mem_filter_bne {t u : JSString} {l : List JSString} :
    u ∈ l.filter (fun x => x != t) ↔ u ∈ l ∧ u ≠ t := by
  simp [List.mem_filter]

theorem toggleTag_what_of_mem {s : State} {t : JSString} (h : t ∈ s.what) :
    (toggleTag t s).what = s.what.filter (fun x => x != t) := by
  simp [toggleTag, h]

theorem toggleTag_what_of_not_mem {s : State} {t : JSString} (h : t ∉ s.what) :
    (toggleTag t s).what = s.what ++ [t] := by
  simp [toggleTag, h]

theorem filter_bne_of_not_mem {t : JSString} {l : List JSString} (h : t ∉ l) :
    l.filter (fun x => x != t) = l := by
  apply List.filter_eq_self.mpr
  intro a ha
  have : a ≠ t := fun e => h (e ▸ ha)
  simpa using this

theorem toggleTag_twice_what (s : State) (t : JSString) :
    (toggleTag t (toggleTag t s)).what =
      if t ∈ s.what then s.what.filter (fun x => x != t) ++ [t] else s.what := by
  by_cases h : t ∈ s.what
  · have h1 : t ∉ (toggleTag t s).what := by
      rw [toggleTag_what_of_mem h]
      intro hm
      exact (mem_filter_bne.mp hm).2 rfl
    rw [toggleTag_what_of_not_mem h1, toggleTag_what_of_mem h, if_pos h]
  · have h1 : t ∈ (toggleTag t s).what := by
      rw [toggleTag_what_of_not_mem h]
      simp
    rw [toggleTag_what_of_mem h1, toggleTag_what_of_not_mem h, if_neg h,
      List.filter_append, filter_bne_of_not_mem h]
    simp

/-! ## The submission gate `canSend` -/

/-- C1. A report whose `details` text is empty or white space only cannot be sent,
whatever the other cells hold. -/
theorem canSend_false_of_blank_details (s : State) (h : isBlank s.details) :
    canSend s = false := by
  simp [canSend, trim_eq_nil_of_isBlank h, truthy]

/-- C1 at the example report with its narrative emptied. -/
theorem canSend_false_of_blank_details_witness :
    isBlank (setDetails (utf16 "") exampleDraft).details ∧
      canSend (setDetails (utf16 "") exampleDraft) = false :=
  ⟨by decide, canSend_false_of_blank_details _ (by decide)⟩

/-- C2. With a non-blank narrative, `anonymous` off and contact consent on, the
report can be sent exactly when the trimmed name and the trimmed contact are both
non-empty. -/
theorem canSend_iff_contact_filled (s : State)
    (hd : ∃ u ∈ s.details, isWhiteSpace u = false)
    (ha : s.anonymous = false) (hc : s.contactOk = true) :
    canSend s = true ↔ (trim s.name ≠ [] ∧ trim s.email ≠ []) := by
  simp [canSend, truthy_trim_of_not_blank hd, ha, hc, truthy_eq_true_iff]

/-- C2 at the report with an empty name: it cannot be sent. -/
theorem canSend_iff_contact_filled_witness :
    (∃ u ∈ namelessDraft.details, isWhiteSpace u = false) ∧
      namelessDraft.anonymous = false ∧ namelessDraft.contactOk = true ∧
      (canSend namelessDraft = true ↔
        (trim namelessDraft.name ≠ [] ∧ trim namelessDraft.email ≠ [])) ∧
      canSend namelessDraft = false :=
  ⟨by decide, rfl, rfl,
    canSend_iff_contact_filled namelessDraft (by decide) rfl rfl, by decide⟩

/-- C3. With a non-blank narrative, a report that is anonymous or has no contact
consent can be sent whatever the contact cells hold; so switching `anonymous` on,
or contact consent off, makes any such report sendable. -/
theorem canSend_of_anonymous_or_no_consent (s : State)
    (hd : ∃ u ∈ s.details, isWhiteSpace u = false) :
    (s.anonymous = true ∨ s.contactOk = false → canSend s = true) ∧
      canSend (setAnonymous true s) = true ∧
      canSend (setContactOk false s) = true := by
  have ht := truthy_trim_of_not_blank hd
  refine ⟨?_, ?_, ?_⟩
  · rintro (h | h) <;> simp [canSend, ht, h]
  · simp [canSend, setAnonymous, ht]
  · simp [canSend, setContactOk, ht]

/-- C3 at the report with an empty name: not sendable as it stands, sendable once
`anonymous` is switched back on or contact consent is withdrawn. -/
theorem canSend_of_anonymous_or_no_consent_witness :
    (∃ u ∈ namelessDraft.details, isWhiteSpace u = false) ∧
      canSend namelessDraft = false ∧
      canSend (setAnonymous true namelessDraft) = true ∧
      canSend (setContactOk false namelessDraft) = true :=
  ⟨by decide, by decide,
    (canSend_of_anonymous_or_no_consent namelessDraft (by decide)).2⟩

/-! ## The derived value `summary` -/

/-- C4. After the text up to "Detalle: " (the body of the same report with an
empty narrative) the body holds the narrative itself when it has at most 220 code
units, and its first 220 code units followed by the ellipsis marker when longer. -/
theorem summary_body_narrative (s : State) :
    List.IsSuffix (utf16 "Detalle: ") (summary (setDetails [] s)).body ∧
      (s.details.length ≤ 220 →
        (summary s).body = (summary (setDetails [] s)).body ++ s.details) ∧
      (220 < s.details.length →
        (summary s).body =
          (summary (setDetails [] s)).body ++ (s.details.take 220 ++ utf16 "…")) := by
  refine ⟨?_, ?_, ?_⟩
  · refine ⟨utf16 "Curso: " ++ s.course ++ utf16 " • Lugar: " ++ s.location ++
        utf16 " • Cuándo: " ++ s.when ++
      utf16 "\nTipo: " ++
        (if s.what.length != 0 then join (utf16 ", ") s.what else utf16 "(sin etiquetas)") ++
      utf16 "\nEvidencia: " ++ (if s.evidence then utf16 "Sí" else utf16 "No") ++
      utf16 "\n\n", ?_⟩
    simp only [summary, setDetails, slice0, List.take_nil, List.length_nil]
    have e : utf16 "\n\nDetalle: " = utf16 "\n\n" ++ utf16 "Detalle: " := by decide
    have e2 : utf16 "" = [] := by decide
    rw [e]
    simp [e2]
  · intro h
    have h1 : ¬ (s.details.length > 220) := by omega
    have e2 : utf16 "" = [] := by decide
    simp [summary, setDetails, slice0, h1, e2, List.take_of_length_le h]
  · intro h
    have h1 : s.details.length > 220 := h
    have e2 : utf16 "" = [] := by decide
    simp [summary, setDetails, slice0, h1, e2]

/-- C4 at a narrative of 220 code units (shown whole, no marker) and at one of 221
(its first 220 code units, then the marker). -/
theorem summary_body_narrative_witness :
    (summary (setDetails narrative220 initialState)).body =
        utf16 "Curso: 3° • Lugar: Aula • Cuándo: Ayer\nTipo: (sin etiquetas)\nEvidencia: No\n\nDetalle: "
          ++ narrative220 ∧
      (summary (setDetails narrative221 initialState)).body =
        utf16 "Curso: 3° • Lugar: Aula • Cuándo: Ayer\nTipo: (sin etiquetas)\nEvidencia: No\n\nDetalle: "
          ++ (List.replicate 220 97 ++ utf16 "…") :=
  ⟨((summary_body_narrative (setDetails narrative220 initialState)).2.1 (by decide)).trans
      (by decide),
    ((summary_body_narrative (setDetails narrative221 initialState)).2.2 (by decide)).trans
      (by decide)⟩

/-- C5. For every state the body is the five-line layout of the specification:
course, place and time on the first line, then the tag line (tags joined by ", ",
or the placeholder), then the evidence line, an empty line, and "Detalle: " with
the truncated narrative. At the initial state it is the expected literal text. -/
theorem summary_body_layout (s : State) :
    (summary s).body = specBody s ∧
      (summary initialState).body =
        utf16 "Curso: 3° • Lugar: Aula • Cuándo: Ayer\nTipo: (sin etiquetas)\nEvidencia: No\n\nDetalle: " := by
  refine ⟨?_, by decide⟩
  have e0 : utf16 "" = [] := by decide
  have e1 : utf16 "\nTipo: " = utf16 "\n" ++ utf16 "Tipo: " := by decide
  have e2 : utf16 "\nEvidencia: " = utf16 "\n" ++ utf16 "Evidencia: " := by decide
  have e3 : utf16 "\n\nDetalle: " = utf16 "\n" ++ (utf16 "\n" ++ utf16 "Detalle: ") := by
    decide
  have ht : (if s.what.length != 0 then join (utf16 ", ") s.what else utf16 "(sin etiquetas)")
      = tagsText s.what := by
    cases s.what <;> simp [tagsText]
  have hn : slice0 s.details 220 ++ (if s.details.length > 220 then utf16 "…" else utf16 "")
      = shownNarrative s.details := by
    unfold shownNarrative slice0
    by_cases h : s.details.length ≤ 220
    · have h1 : ¬ (s.details.length > 220) := by omega
      simp [h, h1, e0, List.take_of_length_le h]
    · have h1 : s.details.length > 220 := by omega
      simp [h, h1]
  have hb : (summary s).body =
      utf16 "Curso: " ++ s.course ++ utf16 " • Lugar: " ++ s.location ++
        utf16 " • Cuándo: " ++ s.when ++
      utf16 "\nTipo: " ++
        (if s.what.length != 0 then join (utf16 ", ") s.what else utf16 "(sin etiquetas)") ++
      utf16 "\nEvidencia: " ++ (if s.evidence then utf16 "Sí" else utf16 "No") ++
      utf16 "\n\nDetalle: " ++
        (slice0 s.details 220 ++ (if s.details.length > 220 then utf16 "…" else utf16 "")) := by
    simp [summary]
  rw [hb, ht, hn, e1, e2, e3]
  simp [specBody, join, e0]

/-- C6. The title is the urgent message when `danger` is on and the normal message
when it is off, the two messages differ, and two states that agree on `danger`
have the same title. -/
theorem summary_title_by_danger (s s' : State) :
    (s.danger = true → (summary s).title = utf16 "Marcaste una situación urgente") ∧
      (s.danger = false → (summary s).title = utf16 "Comunicación lista para enviar") ∧
      utf16 "Marcaste una situación urgente" ≠ utf16 "Comunicación lista para enviar" ∧
      (s.danger = s'.danger → (summary s).title = (summary s').title) := by
  refine ⟨?_, ?_, by decide, ?_⟩
  · intro h; simp [summary, h]
  · intro h; simp [summary, h]
  · intro h; simp [summary, h]

/-- C6 at two reports that differ in many cells and agree on `danger`. -/
theorem summary_title_by_danger_witness :
    exampleDraft ≠ namelessDraft ∧
      (summary exampleDraft).title = (summary namelessDraft).title ∧
      (summary exampleDraft).title = utf16 "Comunicación lista para enviar" :=
  ⟨by decide, (summary_title_by_danger exampleDraft namelessDraft).2.2.2 rfl,
    (summary_title_by_danger exampleDraft namelessDraft).2.1 rfl⟩

/-! ## The handler `toggleTag` -/

/-- C7, as stated, fails: with "Exclusión" and "Amenazas" selected in that order
(a duplicate-free list), toggling "Exclusión" twice leaves it after "Amenazas". -/
theorem toggleTag_twice_reorders :
    twoTags.what.Nodup ∧
      twoTags.what = [utf16 "Exclusión", utf16 "Amenazas"] ∧
      (toggleTag (utf16 "Exclusión") (toggleTag (utf16 "Exclusión") twoTags)).what =
        [utf16 "Amenazas", utf16 "Exclusión"] ∧
      toggleTag (utf16 "Exclusión") (toggleTag (utf16 "Exclusión") twoTags) ≠ twoTags := by
  decide

/-- C7, amended. On a duplicate-free tag list, toggling the same tag twice changes
no cell other than `what`, and leaves in `what` a duplicate-free permutation of the
original list: the original list itself when the tag was absent or was its last
element, and otherwise the original list with the tag moved to the end. -/
theorem toggleTag_twice (s : State) (t : JSString) (hn : s.what.Nodup) :
    toggleTag t (toggleTag t s) =
        setWhat (if t ∈ s.what then s.what.filter (fun x => x != t) ++ [t] else s.what) s ∧
      List.Perm (toggleTag t (toggleTag t s)).what s.what ∧
      (toggleTag t (toggleTag t s)).what.Nodup ∧
      (t ∉ s.what → toggleTag t (toggleTag t s) = s) ∧
      (∀ l, s.what = l ++ [t] → toggleTag t (toggleTag t s) = s) := by
  have hw := toggleTag_twice_what s t
  have hf : toggleTag t (toggleTag t s) = setWhat (toggleTag t (toggleTag t s)).what s := by
    simp [toggleTag, setWhat]
  have hnd : (toggleTag t (toggleTag t s)).what.Nodup := by
    rw [hw]
    by_cases h : t ∈ s.what
    · rw [if_pos h]
      refine List.Nodup.append (hn.filter _) (List.nodup_singleton t) ?_
      intro a ha hb
      have : a = t := by simpa using hb
      exact (mem_filter_bne.mp ha).2 this
    · rw [if_neg h]; exact hn
  have hmem : ∀ a, a ∈ (toggleTag t (toggleTag t s)).what ↔ a ∈ s.what := by
    intro a
    rw [hw]
    by_cases h : t ∈ s.what
    · rw [if_pos h, List.mem_append, mem_filter_bne]
      constructor
      · rintro (⟨ha, _⟩ | ha)
        · exact ha
        · have : a = t := by simpa using ha
          exact this ▸ h
      · intro ha
        by_cases e : a = t
        · right; simp [e]
        · left; exact ⟨ha, e⟩
    · rw [if_neg h]
  refine ⟨?_, (List.perm_ext_iff_of_nodup hnd hn).mpr hmem, hnd, ?_, ?_⟩
  · rw [hf, hw]
  · intro h
    rw [hf, hw, if_neg h]
    rfl
  · intro l hl
    have hnl : (l ++ [t]).Nodup := hl ▸ hn
    have htl : t ∉ l := by
      intro hm
      have := (List.nodup_append.mp hnl).2.2
      exact this hm (List.mem_singleton_self t)
    have hin : t ∈ s.what := by rw [hl]; simp
    rw [hf, hw, if_pos hin, hl, List.filter_append, filter_bne_of_not_mem htl]
    have : List.filter (fun x => x != t) [t] = [] := by simp
    rw [this, List.append_nil, ← hl]
    rfl

/-- C7, amended, at the two selected tags: toggling the first one twice permutes
the list, toggling the last one twice restores the state. -/
theorem toggleTag_twice_witness :
    twoTags.what.Nodup ∧
      List.Perm
        (toggleTag (utf16 "Exclusión") (toggleTag (utf16 "Exclusión") twoTags)).what
        twoTags.what ∧
      toggleTag (utf16 "Amenazas") (toggleTag (utf16 "Amenazas") twoTags) = twoTags :=
  ⟨by decide, (toggleTag_twice twoTags (utf16 "Exclusión") (by decide)).2.1,
    (toggleTag_twice twoTags (utf16 "Amenazas") (by decide)).2.2.2.2
      [utf16 "Exclusión"] (by decide)⟩

/-- C8. Toggling a tag that is present removes it, toggling a tag that is absent
adds it, and in both cases any other tag is in the list afterwards exactly when it
was before. -/
theorem toggleTag_membership (s : State) (t u : JSString) :
    (t ∈ s.what → t ∉ (toggleTag t s).what) ∧
      (t ∉ s.what → t ∈ (toggleTag t s).what) ∧
      (u ≠ t → (u ∈ (toggleTag t s).what ↔ u ∈ s.what)) := by
  refine ⟨?_, ?_, ?_⟩
  · intro h hm
    rw [toggleTag_what_of_mem h] at hm
    exact (mem_filter_bne.mp hm).2 rfl
  · intro h
    rw [toggleTag_what_of_not_mem h]
    simp
  · intro hne
    by_cases h : t ∈ s.what
    · rw [toggleTag_what_of_mem h, mem_filter_bne]
      exact ⟨fun x => x.1, fun x => ⟨x, hne⟩⟩
    · rw [toggleTag_what_of_not_mem h, List.mem_append]
      constructor
      · rintro (x | x)
        · exact x
        · exact absurd (by simpa using x) hne
      · intro x; exact Or.inl x

/-- C8 at the two selected tags: toggling "Exclusión" removes it and keeps
"Amenazas"; toggling "Rumores" adds it and keeps "Amenazas". -/
theorem toggleTag_membership_witness :
    utf16 "Exclusión" ∉ (toggleTag (utf16 "Exclusión") twoTags).what ∧
      utf16 "Rumores" ∈ (toggleTag (utf16 "Rumores") twoTags).what ∧
      utf16 "Amenazas" ∈ (toggleTag (utf16 "Exclusión") twoTags).what ∧
      utf16 "Amenazas" ∈ (toggleTag (utf16 "Rumores") twoTags).what :=
  ⟨(toggleTag_membership twoTags (utf16 "Exclusión") (utf16 "Amenazas")).1 (by decide),
    (toggleTag_membership twoTags (utf16 "Rumores") (utf16 "Amenazas")).2.1 (by decide),
    ((toggleTag_membership twoTags (utf16 "Exclusión") (utf16 "Amenazas")).2.2
      (by decide)).mpr (by decide),
    ((toggleTag_membership twoTags (utf16 "Rumores") (utf16 "Amenazas")).2.2
      (by decide)).mpr (by decide)⟩

/-! ## The handler `reset` and the initial state -/

/-- C9. From any state, `reset` gives the initial state: the same result whatever
the prior state, with every cell at its documented default and `sent` false. -/
theorem reset_eq_initialState (s s' : State) :
    reset s = initialState ∧ reset s = reset s' ∧
      (reset s).anonymous = true ∧ (reset s).contactOk = false ∧
      (reset s).name = [] ∧ (reset s).email = [] ∧
      (reset s).course = initialState.course ∧
      (reset s).location = initialState.location ∧
      (reset s).when = initialState.when ∧
      (reset s).what = [] ∧ (reset s).details = [] ∧
      (reset s).evidence = false ∧ (reset s).danger = false ∧
      (reset s).sent = false := by
  have h : ∀ x : State, reset x = initialState := fun _ => rfl
  rw [h s, h s']
  decide

/-- C10, as stated, fails: the initial course is not the first grade label. -/
theorem initial_course_not_first_grade :
    ¬ (grades.head? = some initialState.course ∧
        locations.head? = some initialState.location) := by
  decide

/-- C10, amended. In the initial state, and after `reset` from any state, the
location is the first location label, "Aula", and the course is the fixed label
"3°", which is the third grade label; the first grade label is "1°". -/
theorem initial_enum_fields (s : State) :
    locations.head? = some initialState.location ∧
      initialState.location = utf16 "Aula" ∧
      initialState.course = utf16 "3°" ∧
      grades.get? 2 = some initialState.course ∧
      grades.head? = some (utf16 "1°") ∧
      (reset s).location = initialState.location ∧
      (reset s).course = initialState.course := by
  have h : reset s = initialState := rfl
  rw [h]
  decide

/-! ## Tag order, the acknowledgment and the send button -/

theorem summary_body_split (s : State) :
    (summary s).body =
      (utf16 "Curso: " ++ s.course ++ utf16 " • Lugar: " ++ s.location ++
          utf16 " • Cuándo: " ++ s.when ++ utf16 "\nTipo: ") ++ tagsText s.what ++
        (utf16 "\nEvidencia: " ++ (if s.evidence then utf16 "Sí" else utf16 "No") ++
          utf16 "\n\nDetalle: " ++ slice0 s.details 220 ++
          (if s.details.length > 220 then utf16 "…" else utf16 "")) := by
  have ht : (if s.what.length != 0 then join (utf16 ", ") s.what else utf16 "(sin etiquetas)")
      = tagsText s.what := by
    cases s.what <;> simp [tagsText]
  simp only [summary, ht, List.append_assoc]

/-- C11, as stated, fails: the same two tags stored in the two possible orders,
every other cell equal, give different bodies. -/
theorem summary_body_depends_on_tag_order :
    twoTagsSwapped = setWhat twoTagsSwapped.what twoTags ∧
      List.Perm twoTagsSwapped.what twoTags.what ∧
      twoTags.what.Nodup ∧ twoTagsSwapped.what.Nodup ∧
      canSend twoTagsSwapped = canSend twoTags ∧
      (summary twoTagsSwapped).title = (summary twoTags).title ∧
      (summary twoTagsSwapped).body ≠ (summary twoTags).body := by
  decide

/-- C11, amended. Two states that differ only in the order of `what` have the same
`canSend` and the same title, and their bodies are the same text before and after
the tag text, which lists each state's tags in stored order; with at most one tag
the bodies are equal. -/
theorem summary_under_tag_reorder (s : State) (w : List JSString)
    (hp : List.Perm w s.what) :
    canSend (setWhat w s) = canSend s ∧
      (summary (setWhat w s)).title = (summary s).title ∧
      (∃ pre post, (summary s).body = pre ++ tagsText s.what ++ post ∧
        (summary (setWhat w s)).body = pre ++ tagsText w ++ post) ∧
      (s.what.length ≤ 1 → (summary (setWhat w s)).body = (summary s).body) := by
  refine ⟨rfl, rfl, ⟨_, _, summary_body_split s, summary_body_split (setWhat w s)⟩, ?_⟩
  intro hl
  have hw : w = s.what := by
    have hlen := hp.length_eq
    cases hs : s.what with
    | nil => rw [hs] at hp; exact List.Perm.eq_nil hp
    | cons a l =>
      rw [hs] at hp hl
      have hl0 : l = [] := by
        cases l with
        | nil => rfl
        | cons b l2 => simp at hl
      subst hl0
      exact List.perm_singleton.mp hp
  rw [hw]
  rfl

/-- C11, amended, at the two tags stored in the two orders. -/
theorem summary_under_tag_reorder_witness :
    List.Perm twoTagsSwapped.what twoTags.what ∧
      canSend (setWhat twoTagsSwapped.what twoTags) = canSend twoTags ∧
      (summary (setWhat twoTagsSwapped.what twoTags)).title = (summary twoTags).title :=
  ⟨by decide,
    (summary_under_tag_reorder twoTags twoTagsSwapped.what (by decide)).1,
    (summary_under_tag_reorder twoTags twoTagsSwapped.what (by decide)).2.1⟩

/-- C12 at the example report after the send click. The block, as the report tab
renders it, gets the title of `summary`, but its body is the fixed thank-you text,
while the body of `summary`, the text that holds the report, is not what it shows. -/
theorem acknowledgment_body_not_summary_body :
    (onSendClick exampleDraft).sent = true ∧
      (acknowledgment (onSendClick exampleDraft)).map Toast.title =
        some (summary (onSendClick exampleDraft)).title ∧
      (acknowledgment (onSendClick exampleDraft)).map Toast.body =
        some (utf16 "Gracias por contar lo que pasó. En un sitio real, esto se enviaría al Equipo de Convivencia para intervención y acompañamiento.") ∧
      (summary (onSendClick exampleDraft)).body =
        utf16 "Curso: 3° • Lugar: Patio • Cuándo: Ayer\nTipo: Agresión física\nEvidencia: No\n\nDetalle: Me empujaron en el recreo" ∧
      (acknowledgment (onSendClick exampleDraft)).map Toast.body ≠
        some (summary (onSendClick exampleDraft)).body := by
  decide

/-- C13. The send handler sets `sent` and nothing else: the eleven report cells
are unchanged, and so are `canSend` and `summary`. -/
theorem onSendClick_frame (s : State) :
    (onSendClick s).sent = true ∧
      (onSendClick s).anonymous = s.anonymous ∧
      (onSendClick s).contactOk = s.contactOk ∧
      (onSendClick s).name = s.name ∧
      (onSendClick s).email = s.email ∧
      (onSendClick s).course = s.course ∧
      (onSendClick s).location = s.location ∧
      (onSendClick s).when = s.when ∧
      (onSendClick s).what = s.what ∧
      (onSendClick s).details = s.details ∧
      (onSendClick s).evidence = s.evidence ∧
      (onSendClick s).danger = s.danger ∧
      canSend (onSendClick s) = canSend s ∧
      summary (onSendClick s) = summary s :=
  ⟨rfl, rfl, rfl, rfl, rfl, rfl, rfl, rfl, rfl, rfl, rfl, rfl, rfl, rfl⟩

/-- C14. The send event is enabled exactly when `canSend` holds, and no enabled
event taken from a state where `canSend` is false turns `sent` from false to
true. -/
theorem send_enabled_iff_canSend (s : State) :
    (canSend s = false → enabled .clickSend s = false) ∧
      (canSend s = true → enabled .clickSend s = true) ∧
      (∀ a, enabled a s = true → canSend s = false → s.sent = false →
        (handle a s).sent = false) := by
  refine ⟨fun h => h, fun h => h, ?_⟩
  intro a he hc hs
  cases a with
  | clickSend =>
    have : canSend s = true := he
    rw [hc] at this
    exact Bool.noConfusion this
  | clickReset => rfl
  | _ => exact hs

/-- C14 at the example report: with its narrative emptied the send event is
disabled, as it stands the send event is enabled. -/
theorem send_enabled_iff_canSend_witness :
    enabled .clickSend (setDetails (utf16 "") exampleDraft) = false ∧
      enabled .clickSend exampleDraft = true :=
  ⟨(send_enabled_iff_canSend (setDetails (utf16 "") exampleDraft)).1 (by decide),
    (send_enabled_iff_canSend exampleDraft).2.1 (by decide)⟩

/-- C15. The example report can be sent, gets the normal title, and its body is
the expected text: it holds the course, place, time, tag, the evidence token "No"
and the whole narrative at its end, with no ellipsis marker. -/
theorem exampleDraft_summary :
    canSend exampleDraft = true ∧
      (summary exampleDraft).title = utf16 "Comunicación lista para enviar" ∧
      (summary exampleDraft).body =
        utf16 "Curso: 3° • Lugar: Patio • Cuándo: Ayer\nTipo: Agresión física\nEvidencia: No\n\nDetalle: Me empujaron en el recreo" ∧
      List.IsInfix (utf16 "3°") (summary exampleDraft).body ∧
      List.IsInfix (utf16 "Patio") (summary exampleDraft).body ∧
      List.IsInfix (utf16 "Ayer") (summary exampleDraft).body ∧
      List.IsInfix (utf16 "Agresión física") (summary exampleDraft).body ∧
      List.IsInfix (utf16 "Evidencia: No") (summary exampleDraft).body ∧
      List.IsSuffix exampleDraft.details (summary exampleDraft).body ∧
      exampleDraft.details = utf16 "Me empujaron en el recreo" ∧
      ¬ List.IsInfix (utf16 "…") (summary exampleDraft).body := by
  decide

/-! ## Reachable states -/

theorem tagInv_toggleTag {s : State} {t : JSString} (ht : t ∈ chips) (h : TagInv s) :
    TagInv (toggleTag t s) := by
  obtain ⟨hn, hc⟩ := h
  by_cases hm : t ∈ s.what
  · refine ⟨?_, ?_⟩
    · rw [toggleTag_what_of_mem hm]
      exact hn.filter _
    · intro x hx
      rw [toggleTag_what_of_mem hm] at hx
      exact hc x (mem_filter_bne.mp hx).1
  · refine ⟨?_, ?_⟩
    · rw [toggleTag_what_of_not_mem hm]
      refine List.Nodup.append hn (List.nodup_singleton t) ?_
      intro a ha hb
      have : a = t := by simpa using hb
      exact hm (this ▸ ha)
    · intro x hx
      rw [toggleTag_what_of_not_mem hm] at hx
      rcases List.mem_append.mp hx with hx | hx
      · exact hc x hx
      · have : x = t := by simpa using hx
        exact this ▸ ht

theorem tagInv_reset (s : State) : TagInv (reset s) :=
  ⟨List.nodup_nil, fun _ hx => absurd hx (List.not_mem_nil _)⟩

theorem tagInv_handle {a : Action} {s : State} (he : enabled a s = true) (h : TagInv s) :
    TagInv (handle a s) := by
  cases a with
  | clickChip t =>
    have ht : t ∈ chips := by simpa [enabled] using he
    exact tagInv_toggleTag ht h
  | clickReset => exact tagInv_reset s
  | _ => exact h

theorem tagInv_of_reachable {s : State} (h : Reachable s) : TagInv s := by
  induction h with
  | init => exact ⟨List.nodup_nil, fun _ hx => absurd hx (List.not_mem_nil _)⟩
  | step a s _ he ih => exact tagInv_handle he ih

/-- C16. In every reachable state `what` has no duplicate and holds labels of
`chips` only; the predicate holds initially and after `reset`, and `toggleTag` with
a label of `chips` preserves it. -/
theorem tag_invariant (s : State) :
    TagInv initialState ∧
      (Reachable s → s.what.Nodup ∧ ∀ x ∈ s.what, x ∈ chips) ∧
      (TagInv s → ∀ t ∈ chips, TagInv (toggleTag t s)) ∧
      TagInv (reset s) :=
  ⟨tagInv_reset initialState, tagInv_of_reachable,
    fun h _ ht => tagInv_toggleTag ht h, tagInv_reset s⟩

/-- C16 at the state with two tags selected, reached by two chip clicks. -/
theorem tag_invariant_witness :
    Reachable twoTags ∧ twoTags.what.Nodup ∧ (∀ x ∈ twoTags.what, x ∈ chips) ∧
      twoTags.what = [utf16 "Exclusión", utf16 "Amenazas"] :=
  have hr : Reachable twoTags :=
    Reachable.step (.clickChip (utf16 "Amenazas")) _
      (Reachable.step (.clickChip (utf16 "Exclusión")) _ Reachable.init (by decide))
      (by decide)
  ⟨hr, ((tag_invariant twoTags).2.1 hr).1, ((tag_invariant twoTags).2.1 hr).2, by decide⟩

/-- C17. Only the send event turns `sent` on, only the reset event turns it off,
and every other event leaves it as it is; a reachable state (send the example
report, then empty the narrative) has `sent` true and `canSend` false, so "sent
implies canSend" is not an invariant. -/
theorem sent_changed_only_by_send_and_reset (a : Action) (s : State) :
    ((handle a s).sent = true → s.sent = false → a = .clickSend) ∧
      ((handle a s).sent = false → s.sent = true → a = .clickReset) ∧
      (a ≠ .clickSend → a ≠ .clickReset → (handle a s).sent = s.sent) ∧
      (handle .clickSend s).sent = true ∧
      (handle .clickReset s).sent = false ∧
      (Reachable sentThenEmptied ∧ sentThenEmptied.sent = true ∧
        canSend sentThenEmptied = false) ∧
      ¬ (∀ x, Reachable x → x.sent = true → canSend x = true) := by
  have hr : Reachable sentThenEmptied :=
    Reachable.step (.inputDetails (utf16 "")) _
      (Reachable.step .clickSend _
        (Reachable.step (.inputDetails (utf16 "Me empujaron en el recreo")) _
          Reachable.init (by decide))
        (by decide))
      (by decide)
  have hs : sentThenEmptied.sent = true := by decide
  have hc : canSend sentThenEmptied = false := by decide
  refine ⟨?_, ?_, ?_, rfl, rfl, ⟨hr, hs, hc⟩, ?_⟩
  · intro h1 h0
    cases a with
    | clickSend => rfl
    | clickReset => exact Bool.noConfusion (show false = true from h1)
    | _ =>
      have h2 : s.sent = true := h1
      rw [h0] at h2
      exact Bool.noConfusion h2
  · intro h0 h1
    cases a with
    | clickReset => rfl
    | clickSend => exact Bool.noConfusion (show true = false from h0)
    | _ =>
      have h2 : s.sent = false := h0
      rw [h1] at h2
      exact Bool.noConfusion h2
  · intro n1 n2
    cases a with
    | clickSend => exact absurd rfl n1
    | clickReset => exact absurd rfl n2
    | _ => rfl
  · intro hall
    have := hall sentThenEmptied hr hs
    rw [hc] at this
    exact Bool.noConfusion this

/-- C18. Two states that agree on course, location, time, tags, narrative,
evidence and danger have the same summary, whatever their `anonymous`, `contactOk`,
`name` and `email` cells hold. -/
theorem summary_ignores_contact (s s' : State)
    (h1 : s.course = s'.course) (h2 : s.location = s'.location)
    (h3 : s.when = s'.when) (h4 : s.what = s'.what)
    (h5 : s.details = s'.details) (h6 : s.evidence = s'.evidence)
    (h7 : s.danger = s'.danger) :
    (summary s).title = (summary s').title ∧ (summary s).body = (summary s').body := by
  simp only [summary, h1, h2, h3, h4, h5, h6, h7, and_self]

/-- C18 at the example report with and without contact data. -/
theorem summary_ignores_contact_witness :
    exampleWithContact.anonymous ≠ exampleDraft.anonymous ∧
      exampleWithContact.contactOk ≠ exampleDraft.contactOk ∧
      exampleWithContact.name ≠ exampleDraft.name ∧
      exampleWithContact.email ≠ exampleDraft.email ∧
      (summary exampleWithContact).title = (summary exampleDraft).title ∧
      (summary exampleWithContact).body = (summary exampleDraft).body :=
  ⟨by decide, by decide, by decide, by decide,
    summary_ignores_contact exampleWithContact exampleDraft rfl rfl rfl rfl rfl rfl rfl⟩

end CeroBullying
